import Mathlib

/-!
Shallow embedding of `src/app.py` (Lace): a four-stage pipeline
load-and-merge → cluster → impact-estimate → render.

Numbers are modelled as rationals (`ℚ`); spreadsheet cells may also hold
non-numeric junk, modelled by `Cell`.  Each pipeline function from the
source is embedded in state-passing style: it returns a pair whose second
component is the value of the input dataframe after the call (the Python
bodies never assign into `df`, so the embedding threads it through
unchanged), which lets frame properties be stated.  A Python function that
can raise an unhandled exception is embedded with `Except Unit`.
-/

namespace Lace

/-- A spreadsheet cell as parsed by pandas: either a numeric value or a
non-numeric (string) value.  The source does not validate cell contents. -/
inductive Cell where
  | num (q : ℚ)
  | str (s : String)
deriving DecidableEq

/-- Numeric view of a cell, `none` when the cell is non-numeric. -/
def asNum : Cell → Option ℚ
  | .num q => some q
  | .str _ => none

/-- The rational held by a cell (0 for non-numeric cells; only used under
hypotheses that make the cell numeric). -/
def qval (c : Cell) : ℚ := (asNum c).getD 0

/-- Arithmetic mean of a list of rationals (`sum / len`). -/
def qmean (l : List ℚ) : ℚ := l.sum / l.length

/-- One row of the "lat long" sheet. -/
structure LatLongRow where
  school_id_giga : Int
  latitude : Cell
  longitude : Cell
  school_name : Option String
deriving DecidableEq

/-- One row of the "measurement data" sheet. -/
structure MeasurementRow where
  school_id_giga : Int
  download_speed : Cell
  upload_speed : Cell
  latency : Cell
deriving DecidableEq

/-- One row of the merged dataframe (a `MeasurementRecord`). -/
structure Row where
  school_id_giga : Int
  latitude : Cell
  longitude : Cell
  school_name : Option String
  download_speed : Cell
  upload_speed : Cell
  latency : Cell
deriving DecidableEq

/-- `pd.merge(lat_long_data, measurement_data, left_on="school_id_giga",
right_on="school_id_giga", how="inner")`: for each left row, in order, one
output row per right row with an equal key. -/
def pdMerge (a : List LatLongRow) (b : List MeasurementRow) : List Row :=
  a.flatMap fun ra =>
    (b.filter fun rb => rb.school_id_giga == ra.school_id_giga).map fun rb =>
      { school_id_giga := ra.school_id_giga
        latitude := ra.latitude
        longitude := ra.longitude
        school_name := ra.school_name
        download_speed := rb.download_speed
        upload_speed := rb.upload_speed
        latency := rb.latency }

/-- Result of parsing the two named sheets out of the fetched bytes
(`pd.read_excel(..., sheet_name=...)`); `Except.error` is a parse
exception (malformed spreadsheet, missing sheet). -/
structure SheetData where
  lat_long : Except Unit (List LatLongRow)
  measurement : Except Unit (List MeasurementRow)

/-- Outcome of `requests.get(url)`: either a response carrying a status
code and the payload, or an exception raised during the fetch. -/
inductive FetchOutcome where
  | response (status : Int) (content : SheetData)
  | raised

/-- `load_data(url)`: non-200 status, parse failure and any raised
exception all yield the empty dataframe; on success the two sheets are
inner-joined on `school_id_giga`.  (The post-join stripping of whitespace
from column labels is invisible here because columns are record fields.) -/
def load_data (resp : FetchOutcome) : List Row :=
  match resp with
  | .raised => []
  | .response status content =>
    if status == 200 then
      match content.lat_long with
      | .error _ => []
      | .ok lat_long_data =>
        match content.measurement with
        | .error _ => []
        | .ok measurement_data => pdMerge lat_long_data measurement_data
    else []

/-! ## Locator: `find_data_center` (KMeans over latitude/longitude) -/

/-- Squared Euclidean distance in the (latitude, longitude) feature space. -/
def sqDist (p c : ℚ × ℚ) : ℚ := (p.1 - c.1) ^ 2 + (p.2 - c.2) ^ 2

/-- Index of the nearest center (first index on ties, as in scikit-learn's
labelling). -/
def nearestIdx (centers : List (ℚ × ℚ)) (p : ℚ × ℚ) : Nat :=
  (List.range centers.length).foldl
    (fun best i =>
      if sqDist p (centers.getD i (0, 0)) < sqDist p (centers.getD best (0, 0)) then i
      else best)
    0

/-- Mean of a point cloud, coordinatewise. -/
def centroid (pts : List (ℚ × ℚ)) : ℚ × ℚ :=
  ((pts.map Prod.fst).sum / pts.length, (pts.map Prod.snd).sum / pts.length)

/-- One Lloyd iteration: assign every point to its nearest center, then
replace each center by the mean of its cluster (keeping a center whose
cluster is empty). -/
def lloydStep (pts : List (ℚ × ℚ)) (centers : List (ℚ × ℚ)) : List (ℚ × ℚ) :=
  (List.range centers.length).map fun i =>
    let cluster := pts.filter fun p => nearestIdx centers p == i
    if cluster.isEmpty then centers.getD i (0, 0) else centroid cluster

/-- `n` Lloyd iterations from the given initial centers. -/
def lloydIter (pts : List (ℚ × ℚ)) (centers : List (ℚ × ℚ)) : Nat → List (ℚ × ℚ)
  | 0 => centers
  | n + 1 => lloydIter pts (lloydStep pts centers) n

/-- Extraction of `df[["latitude", "longitude"]]` as numeric data, the way
`KMeans.fit` consumes it: any non-numeric coordinate makes the fit raise. -/
def numCoords : List (Cell × Cell) → Option (List (ℚ × ℚ))
  | [] => some []
  | (a, b) :: rest =>
    match asNum a, asNum b, numCoords rest with
    | some x, some y, some r => some ((x, y) :: r)
    | _, _, _ => none

/-- `find_data_center(df, n_clusters=1)`.  Empty dataframe: logs and
returns the `None` sentinel.  Otherwise `KMeans(n_clusters=1,
random_state=0).fit(df[["latitude", "longitude"]])` is run: `init` models
the initial center placement (k-means++ seeded by `random_state=0` picks a
data point; we allow an arbitrary initial center, which is more general),
300 is scikit-learn's default iteration cap, and a non-numeric coordinate
raises an unhandled `ValueError` (`Except.error`).  The second component
is the dataframe after the call. -/
def find_data_center (init : ℚ × ℚ) (df : List Row) :
    Except Unit (Option (List (ℚ × ℚ))) × List Row :=
  if df.isEmpty then (.ok none, df)
  else
    match numCoords (df.map fun r => (r.latitude, r.longitude)) with
    | none => (.error (), df)
    | some pts => (.ok (some (lloydIter pts [init] 300)), df)

/-! ## Estimator: `calculate_impact` -/

/-- Numeric extraction of a whole column; `none` if any cell is
non-numeric. -/
def numList : List Cell → Option (List ℚ)
  | [] => some []
  | c :: rest =>
    match asNum c, numList rest with
    | some q, some qs => some (q :: qs)
    | _, _ => none

/-- `df[col].mean()`: arithmetic mean of a numeric column; a non-numeric
entry makes the pandas reduction raise (`Except.error`). -/
def seriesMean (cs : List Cell) : Except Unit ℚ :=
  match numList cs with
  | some qs => .ok (qs.sum / qs.length)
  | none => .error ()

/-- The six scalars returned by `calculate_impact`, in the source's return
order. -/
structure ImpactSummary where
  latency_reduction : ℚ
  download_increase : ℚ
  upload_increase : ℚ
  avg_latency_before : ℚ
  avg_download_before : ℚ
  avg_upload_before : ℚ
deriving DecidableEq

/-- `calculate_impact(df, center)`: `None` sentinel on an empty dataframe;
otherwise the three column means ("before") and the fixed ×0.8 / ×1.2
projections ("after").  The `center` argument is accepted but never read.
The second component is the dataframe after the call. -/
def calculate_impact (df : List Row) (center : List (ℚ × ℚ)) :
    Except Unit (Option ImpactSummary) × List Row :=
  if df.isEmpty then (.ok none, df)
  else
    match seriesMean (df.map fun r => r.latency) with
    | .error e => (.error e, df)
    | .ok avg_latency_before =>
      match seriesMean (df.map fun r => r.download_speed) with
      | .error e => (.error e, df)
      | .ok avg_download_before =>
        match seriesMean (df.map fun r => r.upload_speed) with
        | .error e => (.error e, df)
        | .ok avg_upload_before =>
          (.ok (some
            { latency_reduction := avg_latency_before * 0.8
              download_increase := avg_download_before * 1.2
              upload_increase := avg_upload_before * 1.2
              avg_latency_before := avg_latency_before
              avg_download_before := avg_download_before
              avg_upload_before := avg_upload_before }), df)

/-! ## Presenter: `plot_map` and `display_3d_bar_chart` -/

/-- Popup content of a folium marker (kept structured rather than as
interpolated HTML text). -/
inductive Popup where
  | school (name : String) (download upload latency : Cell)
  | dataCenter
deriving DecidableEq

/-- A folium marker: location, popup, icon color and glyph. -/
structure Marker where
  location : Cell × Cell
  popup : Popup
  color : String
  icon : String
deriving DecidableEq

/-- The folium map built by `plot_map`: initial view, the
`MarkerCluster` children (one per record) and the markers added directly
to the map (the data-center marker). -/
structure FoliumMap where
  location : ℚ × ℚ
  zoom_start : Nat
  cluster_markers : List Marker
  map_markers : List Marker
deriving DecidableEq

/-- `plot_map(df, center)`: `None` sentinel on an empty dataframe;
otherwise builds the map centered on `center[0]`, one clustered blue
marker per record (name defaulting to "N/A"), one red data-center marker,
and saves it as "map.html".  The second component is the dataframe after
the call. -/
def plot_map (df : List Row) (center : List (ℚ × ℚ)) :
    Option (String × FoliumMap) × List Row :=
  if df.isEmpty then (none, df)
  else
    let c := center.getD 0 (0, 0)
    let m : FoliumMap :=
      { location := c
        zoom_start := 10
        cluster_markers := df.map fun row =>
          { location := (row.latitude, row.longitude)
            popup := .school (row.school_name.getD "N/A")
              row.download_speed row.upload_speed row.latency
            color := "blue"
            icon := "info-sign" }
        map_markers :=
          [{ location := (.num c.1, .num c.2)
             popup := .dataCenter
             color := "red"
             icon := "cloud" }] }
    (some ("map.html", m), df)

/-- The tidy three-row table behind the grouped bar chart: metric label,
Before value, After value. -/
structure ChartData where
  rows : List (String × Option ℚ × Option ℚ)
deriving DecidableEq

/-- `display_3d_bar_chart(...)`: skips (returns the no-chart sentinel)
when `latency_reduction is None`, else reshapes the six scalars into the
three-row Before/After table that is plotted. -/
def display_3d_bar_chart (latency_reduction download_increase upload_increase
    avg_latency_before avg_download_before avg_upload_before : Option ℚ) :
    Option ChartData :=
  match latency_reduction with
  | none => none
  | some _ => some
      { rows :=
          [("Latency (ms)", avg_latency_before, latency_reduction),
           ("Download Speed (Mbps)", avg_download_before, download_increase),
           ("Upload Speed (Mbps)", avg_upload_before, upload_increase)] }

/-! ## `main`: the pipeline -/

/-- Observable outcome of a run of `main`. -/
inductive MainResult where
  /-- "No data to process, exiting application." -/
  | emptyData
  /-- "Could not find data center, exiting application." -/
  | noCenter
  /-- Full run: the centers, the saved map file (embedded when present),
  the impact scalars and the displayed chart. -/
  | done (center : List (ℚ × ℚ)) (map_file : Option String)
      (impact : ImpactSummary) (chart : Option ChartData)
deriving DecidableEq

/-- `main()`, as a function of the fetch outcome (and of the KMeans
initial center, see `find_data_center`).  `Except.error` is an unhandled
exception escaping `main`; note that unpacking `calculate_impact`'s
result would raise a `TypeError` if it were `None` (unreachable: `main`
has already returned on an empty dataframe). -/
def main (init : ℚ × ℚ) (resp : FetchOutcome) : Except Unit MainResult :=
  let df := load_data resp
  if df.isEmpty then .ok .emptyData
  else
    match (find_data_center init df).1 with
    | .error e => .error e
    | .ok none => .ok .noCenter
    | .ok (some center) =>
      let map_file := (plot_map df center).1.map Prod.fst
      match (calculate_impact df center).1 with
      | .error e => .error e
      | .ok none => .error ()
      | .ok (some i) =>
        .ok (.done center map_file i
          (display_3d_bar_chart (some i.latency_reduction)
            (some i.download_increase) (some i.upload_increase)
            (some i.avg_latency_before) (some i.avg_download_before)
            (some i.avg_upload_before)))

/-! ## Helper lemmas -/

/-- `List.range 1` spelled out. -/
theorem range_one_eq : List.range 1 = [0] := by decide

/-- With a single center, every point is assigned to index 0. -/
theorem nearestIdx_single (c p : ℚ × ℚ) : nearestIdx [c] p = 0 := by
  simp [nearestIdx, range_one_eq]

/-- One Lloyd iteration with a single center moves it to the mean of the
(non-empty) point cloud, wherever it started. -/
theorem lloydStep_single (pts : List (ℚ × ℚ)) (h : pts ≠ []) (c : ℚ × ℚ) :
    lloydStep pts [c] = [centroid pts] := by
  simp [lloydStep, range_one_eq, nearestIdx_single, List.filter_eq_self, h]

/-- Any positive number of Lloyd iterations with a single center lands on
the mean of the (non-empty) point cloud, for any initial center. -/
theorem lloydIter_single_pos (pts : List (ℚ × ℚ)) (h : pts ≠ []) (c : ℚ × ℚ) :
    ∀ n, 0 < n → lloydIter pts [c] n = [centroid pts] := by
  have fix : ∀ m, lloydIter pts [centroid pts] m = [centroid pts] := by
    intro m
    induction m with
    | zero => rfl
    | succ k ih =>
      show lloydIter pts (lloydStep pts [centroid pts]) k = [centroid pts]
      rw [lloydStep_single pts h]
      exact ih
  intro n hn
  cases n with
  | zero => exact absurd hn (by simp)
  | succ k =>
    show lloydIter pts (lloydStep pts [c]) k = [centroid pts]
    rw [lloydStep_single pts h]
    exact fix k

/-- `numCoords` preserves length when it succeeds. -/
theorem numCoords_length (l : List (Cell × Cell)) :
    ∀ pts, numCoords l = some pts → pts.length = l.length := by
  induction l with
  | nil =>
    intro pts h
    simp only [numCoords, Option.some.injEq] at h
    simp [← h]
  | cons ab rest ih =>
    intro pts h
    obtain ⟨a, b⟩ := ab
    simp only [numCoords] at h
    split at h
    · rename_i x y r hx hy hr
      cases h
      simp [ih r hr]
    · cases h

/-- On rows whose coordinates are all numeric, `numCoords` succeeds and
returns exactly the numeric values of the two columns. -/
theorem numCoords_map (df : List Row)
    (h : ∀ r ∈ df, (asNum r.latitude).isSome ∧ (asNum r.longitude).isSome) :
    numCoords (df.map fun r => (r.latitude, r.longitude)) =
      some (df.map fun r => (qval r.latitude, qval r.longitude)) := by
  induction df with
  | nil => rfl
  | cons r rest ih =>
    obtain ⟨hlat, hlon⟩ := h r (List.mem_cons_self r rest)
    obtain ⟨x, hx⟩ := Option.isSome_iff_exists.mp hlat
    obtain ⟨y, hy⟩ := Option.isSome_iff_exists.mp hlon
    have hrest := ih fun q hq => h q (List.mem_cons_of_mem r hq)
    simp [numCoords, hx, hy, hrest, qval]

/-- On an all-numeric column, `numList` succeeds and returns exactly the
numeric values. -/
theorem numList_map (cs : List Cell) (h : ∀ c ∈ cs, (asNum c).isSome) :
    numList cs = some (cs.map qval) := by
  induction cs with
  | nil => rfl
  | cons c rest ih =>
    obtain ⟨x, hx⟩ := Option.isSome_iff_exists.mp (h c (List.mem_cons_self c rest))
    have hrest := ih fun q hq => h q (List.mem_cons_of_mem c hq)
    simp [numList, hx, hrest, qval]

/-- On an all-numeric column, `df[col].mean()` is the arithmetic mean of
the numeric values. -/
theorem seriesMean_ok (cs : List Cell) (h : ∀ c ∈ cs, (asNum c).isSome) :
    seriesMean cs = .ok (qmean (cs.map qval)) := by
  simp [seriesMean, numList_map cs h, qmean]

/-- A non-empty list is not `isEmpty`. -/
theorem isEmpty_false_of_ne_nil {α : Type} {l : List α} (h : l ≠ []) :
    l.isEmpty = false := by
  cases l with
  | nil => exact absurd rfl h
  | cons x xs => rfl

/-! ## Claims -/

/-- C1: on a non-empty dataframe (with numeric coordinates, the Dataset
invariant), `find_data_center` with the hardcoded single cluster returns
exactly one center, equal to the arithmetic mean of the latitude and
longitude columns — for every initial center, i.e. regardless of seed. -/
theorem locator_single_cluster_is_mean (init : ℚ × ℚ) (df : List Row)
    (hne : df ≠ [])
    (hnum : ∀ r ∈ df, (asNum r.latitude).isSome ∧ (asNum r.longitude).isSome) :
    (find_data_center init df).1 =
      Except.ok (some [(qmean (df.map fun r => qval r.latitude),
                        qmean (df.map fun r => qval r.longitude))]) := by
  have hco := numCoords_map df hnum
  have hpts : (df.map fun r => (qval r.latitude, qval r.longitude)) ≠ [] := by
    simp [hne]
  have hiter := lloydIter_single_pos _ hpts init 300 (by norm_num)
  simp only [find_data_center, isEmpty_false_of_ne_nil hne, Bool.false_eq_true,
    if_false, hco, hiter]
  simp [centroid, qmean, List.map_map, Function.comp_def]

/-- Witness for C1 at a concrete two-row dataframe. -/
theorem locator_single_cluster_is_mean_witness :
    ([⟨1, .num 1, .num 2, none, .num 10, .num 2, .num 50⟩,
      ⟨2, .num 3, .num 4, none, .num 20, .num 4, .num 30⟩] : List Row) ≠ [] ∧
    (∀ r ∈ ([⟨1, .num 1, .num 2, none, .num 10, .num 2, .num 50⟩,
        ⟨2, .num 3, .num 4, none, .num 20, .num 4, .num 30⟩] : List Row),
      (asNum r.latitude).isSome ∧ (asNum r.longitude).isSome) ∧
    (find_data_center (0, 0)
        [⟨1, .num 1, .num 2, none, .num 10, .num 2, .num 50⟩,
         ⟨2, .num 3, .num 4, none, .num 20, .num 4, .num 30⟩]).1 =
      Except.ok (some
        [(qmean (([⟨1, .num 1, .num 2, none, .num 10, .num 2, .num 50⟩,
             ⟨2, .num 3, .num 4, none, .num 20, .num 4, .num 30⟩] : List Row).map
              fun r => qval r.latitude),
          qmean (([⟨1, .num 1, .num 2, none, .num 10, .num 2, .num 50⟩,
             ⟨2, .num 3, .num 4, none, .num 20, .num 4, .num 30⟩] : List Row).map
              fun r => qval r.longitude))]) :=
  ⟨by decide, by decide,
    locator_single_cluster_is_mean (0, 0) _ (by decide) (by decide)⟩

/-- C2: on a non-empty dataframe with numeric metric columns,
`calculate_impact`'s "before" values are the column means of latency,
download_speed and upload_speed, and the "after" values are exactly
0.8 × latency, 1.2 × download and 1.2 × upload (exact in ℚ). -/
theorem estimator_means_and_fixed_factors (df : List Row) (center : List (ℚ × ℚ))
    (hne : df ≠ [])
    (hnum : ∀ r ∈ df, (asNum r.latency).isSome ∧
      (asNum r.download_speed).isSome ∧ (asNum r.upload_speed).isSome) :
    (calculate_impact df center).1 = Except.ok (some
      { latency_reduction := qmean (df.map fun r => qval r.latency) * 0.8
        download_increase := qmean (df.map fun r => qval r.download_speed) * 1.2
        upload_increase := qmean (df.map fun r => qval r.upload_speed) * 1.2
        avg_latency_before := qmean (df.map fun r => qval r.latency)
        avg_download_before := qmean (df.map fun r => qval r.download_speed)
        avg_upload_before := qmean (df.map fun r => qval r.upload_speed) }) := by
  have h1 : seriesMean (df.map fun r => r.latency) =
      .ok (qmean (df.map fun r => qval r.latency)) := by
    rw [seriesMean_ok]
    · simp [List.map_map, Function.comp_def]
    · intro c hc
      obtain ⟨r, hr, rfl⟩ := List.mem_map.mp hc
      exact (hnum r hr).1
  have h2 : seriesMean (df.map fun r => r.download_speed) =
      .ok (qmean (df.map fun r => qval r.download_speed)) := by
    rw [seriesMean_ok]
    · simp [List.map_map, Function.comp_def]
    · intro c hc
      obtain ⟨r, hr, rfl⟩ := List.mem_map.mp hc
      exact (hnum r hr).2.1
  have h3 : seriesMean (df.map fun r => r.upload_speed) =
      .ok (qmean (df.map fun r => qval r.upload_speed)) := by
    rw [seriesMean_ok]
    · simp [List.map_map, Function.comp_def]
    · intro c hc
      obtain ⟨r, hr, rfl⟩ := List.mem_map.mp hc
      exact (hnum r hr).2.2
  simp [calculate_impact, isEmpty_false_of_ne_nil hne, h1, h2, h3]

/-- Witness for C2 at a concrete two-row dataframe. -/
theorem estimator_means_and_fixed_factors_witness :
    ([⟨1, .num 1, .num 2, none, .num 10, .num 2, .num 50⟩,
      ⟨2, .num 3, .num 4, none, .num 20, .num 4, .num 30⟩] : List Row) ≠ [] ∧
    (∀ r ∈ ([⟨1, .num 1, .num 2, none, .num 10, .num 2, .num 50⟩,
        ⟨2, .num 3, .num 4, none, .num 20, .num 4, .num 30⟩] : List Row),
      (asNum r.latency).isSome ∧ (asNum r.download_speed).isSome ∧
        (asNum r.upload_speed).isSome) ∧
    (calculate_impact
        [⟨1, .num 1, .num 2, none, .num 10, .num 2, .num 50⟩,
         ⟨2, .num 3, .num 4, none, .num 20, .num 4, .num 30⟩] []).1 =
      Except.ok (some
        { latency_reduction := 40 * 0.8
          download_increase := 15 * 1.2
          upload_increase := 3 * 1.2
          avg_latency_before := 40
          avg_download_before := 15
          avg_upload_before := 3 }) := by
  refine ⟨by decide, by decide, ?_⟩
  have h := estimator_means_and_fixed_factors
    [⟨1, .num 1, .num 2, none, .num 10, .num 2, .num 50⟩,
     ⟨2, .num 3, .num 4, none, .num 20, .num 4, .num 30⟩] []
    (by decide) (by decide)
  rw [h]
  norm_num [qmean, qval, asNum]

/-- C6: on the empty dataframe, `find_data_center` returns the `None`
sentinel — an `Except.ok` (no exception), carrying no center. -/
theorem locator_empty_returns_sentinel (init : ℚ × ℚ) :
    (find_data_center init []).1 = Except.ok none := rfl

/-- C8: `calculate_impact` is independent of the `center` argument: any
two center values give the same result (and the same dataframe state). -/
theorem estimator_ignores_center (df : List Row) (c1 c2 : List (ℚ × ℚ)) :
    calculate_impact df c1 = calculate_impact df c2 := rfl

/-- C9: there is a non-empty dataframe with a non-numeric latitude on
which `find_data_center` raises an unhandled exception — the malformed
data is not converted into the sentinel or an empty result, for any
initial center. -/
theorem locator_raises_on_malformed (init : ℚ × ℚ) :
    ∃ df : List Row, df ≠ [] ∧ (find_data_center init df).1 = Except.error () :=
  ⟨[⟨1, .str "not a number", .num 0, none, .num 10, .num 2, .num 50⟩],
    by simp, rfl⟩

/-- C10: `find_data_center`, `calculate_impact` and `plot_map` leave the
dataframe unchanged: the dataframe value after each call equals the input. -/
theorem stages_leave_dataframe_unchanged (init : ℚ × ℚ) (df : List Row)
    (center : List (ℚ × ℚ)) :
    (find_data_center init df).2 = df ∧ (calculate_impact df center).2 = df ∧
      (plot_map df center).2 = df := by
  refine ⟨?_, ?_, ?_⟩
  · unfold find_data_center
    split
    · rfl
    · split <;> rfl
  · unfold calculate_impact
    split
    · rfl
    · split
      · rfl
      · split
        · rfl
        · split <;> rfl
  · unfold plot_map
    split <;> rfl

/-- The Locator's result value does not depend on the initial center: any
two seeds give the same outcome (sentinel, exception, or the mean). -/
theorem find_data_center_init_irrelevant (i1 i2 : ℚ × ℚ) (df : List Row) :
    (find_data_center i1 df).1 = (find_data_center i2 df).1 := by
  by_cases he : df.isEmpty = true
  · simp [find_data_center, he]
  · have hne : df ≠ [] := by
      intro h
      subst h
      exact he rfl
    rcases hnc : numCoords (df.map fun r => (r.latitude, r.longitude)) with _ | pts
    · simp [find_data_center, he, hnc]
    · have hlen := numCoords_length _ pts hnc
      have hpne : pts ≠ [] := by
        intro hp
        subst hp
        simp at hlen
        exact hne (List.eq_nil_of_length_eq_zero hlen.symm)
      simp [find_data_center, he, hnc,
        lloydIter_single_pos pts hpne i1 300 (by norm_num),
        lloydIter_single_pos pts hpne i2 300 (by norm_num)]

/-- C7: the pipeline is a deterministic function of the fetched payload —
`main` gives the same result for any two seeds (initial centers), so two
runs on identical bytes yield identical centers, impact scalars, map and
chart. -/
theorem pipeline_deterministic (i1 i2 : ℚ × ℚ) (resp : FetchOutcome) :
    main i1 resp = main i2 resp := by
  simp only [main]
  rw [find_data_center_init_irrelevant i1 i2 (load_data resp)]

/-- C4: `load_data` never propagates a failure: a raised fetch exception,
a non-200 status, or a parse error on either sheet all yield the empty
dataframe, and the merged (inner-joined) dataframe is returned only on a
200 response with both sheets parsed. -/
theorem loader_error_handling (s : Int) (c : SheetData)
    (a : List LatLongRow) (b : List MeasurementRow) :
    load_data .raised = [] ∧
    (s ≠ 200 → load_data (.response s c) = []) ∧
    (c.lat_long = .error () → load_data (.response s c) = []) ∧
    (c.measurement = .error () → load_data (.response s c) = []) ∧
    load_data (.response 200 ⟨.ok a, .ok b⟩) = pdMerge a b := by
  refine ⟨rfl, ?_, ?_, ?_, ?_⟩
  · intro h
    have hb : (s == 200) = false := by
      simp [h]
    simp [load_data, hb]
  · intro h
    rcases c with ⟨cl, cm⟩
    simp only at h
    subst h
    simp only [load_data]
    split <;> rfl
  · intro h
    rcases c with ⟨cl, cm⟩
    simp only at h
    subst h
    simp only [load_data]
    split
    · rcases cl with _ | la <;> rfl
    · rfl
  · simp [load_data]

/-- Witness for C4: each guarded failure at a concrete input, plus a
concrete success. -/
theorem loader_error_handling_witness :
    load_data .raised = [] ∧
    load_data (.response 404 ⟨.ok [], .ok []⟩) = [] ∧
    load_data (.response 200 ⟨.error (), .ok []⟩) = [] ∧
    load_data (.response 200 ⟨.ok [], .error ()⟩) = [] ∧
    load_data (.response 200 ⟨.ok [], .ok []⟩) = pdMerge [] [] := by
  refine ⟨?_, ?_, ?_, ?_, ?_⟩
  · exact (loader_error_handling 404 ⟨.ok [], .ok []⟩ [] []).1
  · exact (loader_error_handling 404 ⟨.ok [], .ok []⟩ [] []).2.1 (by decide)
  · exact (loader_error_handling 200 ⟨.error (), .ok []⟩ [] []).2.2.1 rfl
  · exact (loader_error_handling 200 ⟨.ok [], .error ()⟩ [] []).2.2.2.1 rfl
  · exact (loader_error_handling 200 ⟨.ok [], .ok []⟩ [] []).2.2.2.2

/-- C5: whenever the Loader yields an empty dataframe, the run reaches the
terminal Empty-Abort state: `main` exits with the "no data" outcome and no
exception, and each downstream stage, applied to the empty dataframe,
returns its "no result" sentinel without raising. -/
theorem empty_abort_terminal (init : ℚ × ℚ) (c : List (ℚ × ℚ))
    (resp : FetchOutcome) (h : load_data resp = []) :
    main init resp = .ok .emptyData ∧
    (find_data_center init (load_data resp)).1 = .ok none ∧
    (calculate_impact (load_data resp) c).1 = .ok none ∧
    (plot_map (load_data resp) c).1 = none ∧
    display_3d_bar_chart none none none none none none = none := by
  refine ⟨?_, ?_, ?_, ?_, rfl⟩
  · simp [main, h]
  · rw [h]
    rfl
  · rw [h]
    rfl
  · rw [h]
    rfl

/-- Witness for C5 at the concrete run whose fetch raised (empty join
result is exercised by the Loader theorems). -/
theorem empty_abort_terminal_witness :
    main (0, 0) .raised = .ok .emptyData ∧
    (find_data_center (0, 0) (load_data .raised)).1 = .ok none ∧
    (calculate_impact (load_data .raised) []).1 = .ok none ∧
    (plot_map (load_data .raised) []).1 = none ∧
    display_3d_bar_chart none none none none none none = none :=
  empty_abort_terminal (0, 0) [] .raised rfl

/-- Counting two mutually exclusive predicates separately is bounded by
counting their disjunction. -/
theorem countP_disjoint_add {α : Type} (l : List α) (p q pq : α → Bool)
    (hpq : ∀ x, p x = true → q x = false)
    (hor : ∀ x, pq x = (p x || q x)) :
    l.countP p + l.countP q ≤ l.countP pq := by
  induction l with
  | nil => simp
  | cons x xs ih =>
    by_cases hp : p x = true
    · have hq := hpq x hp
      simp [List.countP_cons, hp, hq, hor x]
      omega
    · simp only [Bool.not_eq_true] at hp
      by_cases hq : q x = true
      · simp [List.countP_cons, hp, hq, hor x]
        omega
      · simp only [Bool.not_eq_true] at hq
        simp [List.countP_cons, hp, hq, hor x]
        omega

/-- Under duplicate-free keys, at most one measurement row matches a
given key. -/
theorem filter_key_len_le_one (b : List MeasurementRow)
    (hb : (b.map MeasurementRow.school_id_giga).Nodup) (k : Int) :
    (b.filter fun rb => rb.school_id_giga == k).length ≤ 1 := by
  induction b with
  | nil => simp
  | cons x bs ih =>
    simp only [List.map_cons, List.nodup_cons] at hb
    obtain ⟨hx, hbs⟩ := hb
    by_cases hk : (x.school_id_giga == k) = true
    · have hke : x.school_id_giga = k := eq_of_beq hk
      have hnil : (bs.filter fun rb => rb.school_id_giga == k) = [] := by
        rw [List.filter_eq_nil_iff]
        intro rb hrb hbeq
        apply hx
        have hrk : rb.school_id_giga = k := eq_of_beq hbeq
        exact List.mem_map.mpr ⟨rb, hrb, hrk.trans hke.symm⟩
      simp [hk, hnil]
    · simp only [Bool.not_eq_true] at hk
      simp [hk]
      exact ih hbs

/-- Under duplicate-free keys in the right sheet, the merge has at most
one output row per left row. -/
theorem pdMerge_length_le_left (a : List LatLongRow) (b : List MeasurementRow)
    (hb : (b.map MeasurementRow.school_id_giga).Nodup) :
    (pdMerge a b).length ≤ a.length := by
  induction a with
  | nil => simp [pdMerge]
  | cons ra as ih =>
    simp only [pdMerge, List.flatMap_cons, List.length_append, List.length_map]
    have h1 := filter_key_len_le_one b hb ra.school_id_giga
    have h2 : (pdMerge as b).length ≤ as.length := ih
    simp only [pdMerge] at h2
    simp only [List.length_cons]
    omega

/-- Under duplicate-free keys in the left sheet, the merge consumes each
right row at most once: its length is bounded by the number of right rows
whose key occurs on the left. -/
theorem pdMerge_length_le_countP (a : List LatLongRow) (b : List MeasurementRow)
    (ha : (a.map LatLongRow.school_id_giga).Nodup) :
    (pdMerge a b).length ≤
      b.countP fun rb =>
        (a.map LatLongRow.school_id_giga).contains rb.school_id_giga := by
  induction a with
  | nil => simp [pdMerge]
  | cons ra as ih =>
    simp only [List.map_cons, List.nodup_cons] at ha
    obtain ⟨hra, has⟩ := ha
    have ihs := ih has
    have hdisj : ∀ rb : MeasurementRow,
        (rb.school_id_giga == ra.school_id_giga) = true →
        ((as.map LatLongRow.school_id_giga).contains rb.school_id_giga) = false := by
      intro rb hbeq
      have h1 : rb.school_id_giga = ra.school_id_giga := eq_of_beq hbeq
      rw [h1]
      simpa using hra
    have hadd := countP_disjoint_add b
      (fun rb => rb.school_id_giga == ra.school_id_giga)
      (fun rb => (as.map LatLongRow.school_id_giga).contains rb.school_id_giga)
      (fun rb => (ra.school_id_giga :: as.map LatLongRow.school_id_giga).contains
        rb.school_id_giga)
      hdisj
      (by
        intro rb
        simp only [List.contains_cons])
    simp only [pdMerge, List.flatMap_cons, List.length_append, List.length_map,
      List.map_cons]
    have hfl : (b.filter fun rb =>
        rb.school_id_giga == ra.school_id_giga).length =
        b.countP fun rb => rb.school_id_giga == ra.school_id_giga :=
      (List.countP_eq_length_filter _ b).symm
    simp only [pdMerge] at ihs
    omega

/-- Under duplicate-free keys in the left sheet, the merge has at most one
output row per right row. -/
theorem pdMerge_length_le_right (a : List LatLongRow) (b : List MeasurementRow)
    (ha : (a.map LatLongRow.school_id_giga).Nodup) :
    (pdMerge a b).length ≤ b.length :=
  le_trans (pdMerge_length_le_countP a b ha) (List.countP_le_length _)

/-- Every merged row's key occurs in both source sheets. -/
theorem pdMerge_mem_keys (a : List LatLongRow) (b : List MeasurementRow) :
    ∀ r ∈ pdMerge a b,
      r.school_id_giga ∈ a.map LatLongRow.school_id_giga ∧
      r.school_id_giga ∈ b.map MeasurementRow.school_id_giga := by
  intro r hr
  simp only [pdMerge, List.mem_flatMap] at hr
  obtain ⟨ra, hra, hr2⟩ := hr
  simp only [List.mem_map, List.mem_filter] at hr2
  obtain ⟨rb, ⟨hrb, hkey⟩, rfl⟩ := hr2
  have hk : rb.school_id_giga = ra.school_id_giga := eq_of_beq hkey
  constructor
  · exact List.mem_map.mpr ⟨ra, hra, rfl⟩
  · exact List.mem_map.mpr ⟨rb, hrb, hk⟩

/-- C3 (amended): for two-sheet inputs whose join keys are duplicate-free
within each sheet, the merged output has at most `min` of the two row
counts, and every output row's key occurs in both source sheets. -/
theorem merge_inner_join_law (a : List LatLongRow) (b : List MeasurementRow)
    (ha : (a.map LatLongRow.school_id_giga).Nodup)
    (hb : (b.map MeasurementRow.school_id_giga).Nodup) :
    (pdMerge a b).length ≤ min a.length b.length ∧
    ∀ r ∈ pdMerge a b,
      r.school_id_giga ∈ a.map LatLongRow.school_id_giga ∧
      r.school_id_giga ∈ b.map MeasurementRow.school_id_giga :=
  ⟨le_min (pdMerge_length_le_left a b hb) (pdMerge_length_le_right a b ha),
    pdMerge_mem_keys a b⟩

/-- C3 as stated is false: two sheets that share the join key 1 but repeat
it twice on each side merge into 4 rows, exceeding `min 2 2`. -/
theorem merge_inner_join_law_counterexample :
    (1 : Int) ∈ ([⟨1, .num 0, .num 0, none⟩, ⟨1, .num 1, .num 1, none⟩] :
        List LatLongRow).map LatLongRow.school_id_giga ∧
    (1 : Int) ∈ ([⟨1, .num 5, .num 6, .num 7⟩, ⟨1, .num 8, .num 9, .num 10⟩] :
        List MeasurementRow).map MeasurementRow.school_id_giga ∧
    ¬ ((pdMerge [⟨1, .num 0, .num 0, none⟩, ⟨1, .num 1, .num 1, none⟩]
          [⟨1, .num 5, .num 6, .num 7⟩, ⟨1, .num 8, .num 9, .num 10⟩]).length ≤
        min ([⟨1, .num 0, .num 0, none⟩, ⟨1, .num 1, .num 1, none⟩] :
            List LatLongRow).length
          ([⟨1, .num 5, .num 6, .num 7⟩, ⟨1, .num 8, .num 9, .num 10⟩] :
            List MeasurementRow).length) := by
  decide

/-- Witness for the amended C3 at concrete duplicate-free sheets. -/
theorem merge_inner_join_law_witness :
    (([⟨1, .num 0, .num 0, none⟩, ⟨2, .num 1, .num 1, none⟩] :
        List LatLongRow).map LatLongRow.school_id_giga).Nodup ∧
    (([⟨2, .num 5, .num 6, .num 7⟩, ⟨3, .num 8, .num 9, .num 10⟩] :
        List MeasurementRow).map MeasurementRow.school_id_giga).Nodup ∧
    ((pdMerge [⟨1, .num 0, .num 0, none⟩, ⟨2, .num 1, .num 1, none⟩]
        [⟨2, .num 5, .num 6, .num 7⟩, ⟨3, .num 8, .num 9, .num 10⟩]).length ≤
      min ([⟨1, .num 0, .num 0, none⟩, ⟨2, .num 1, .num 1, none⟩] :
          List LatLongRow).length
        ([⟨2, .num 5, .num 6, .num 7⟩, ⟨3, .num 8, .num 9, .num 10⟩] :
          List MeasurementRow).length ∧
      ∀ r ∈ pdMerge [⟨1, .num 0, .num 0, none⟩, ⟨2, .num 1, .num 1, none⟩]
          [⟨2, .num 5, .num 6, .num 7⟩, ⟨3, .num 8, .num 9, .num 10⟩],
        r.school_id_giga ∈ ([⟨1, .num 0, .num 0, none⟩, ⟨2, .num 1, .num 1, none⟩] :
            List LatLongRow).map LatLongRow.school_id_giga ∧
        r.school_id_giga ∈ ([⟨2, .num 5, .num 6, .num 7⟩, ⟨3, .num 8, .num 9, .num 10⟩] :
            List MeasurementRow).map MeasurementRow.school_id_giga) :=
  ⟨by decide, by decide, merge_inner_join_law _ _ (by decide) (by decide)⟩
